import Mathlib

/-!
Verification development for the pm2-io-agent-node websocket transport
(`src/transport.js`) and agent session (`src/index.js`).

The JavaScript source is shallowly embedded: pure functions become Lean
functions, the event-driven transport becomes an explicit state machine
on `TState` whose operations mirror the methods of `WebsocketTransport`,
and the asynchronous emission of socket `close` events is modelled by a
queue of pending close events (`TState.pendingClose`) delivered by
`deliverClose`.  External collaborators (the `ws` library socket, the
HTTP credential call, `JSON.parse`) are modelled at their observable
interface: a socket has a readyState and registered handlers, an inbound
frame is either unparseable or a parsed object, and the HTTP call yields
either an error or a response object.
-/

namespace PM2Io

/-- A JavaScript value, as far as the transport inspects values: the code
only ever tests truthiness of fields and uses a channel value as an object
key.  Numbers are modelled as integers (the code never does arithmetic on
packet fields); an object or array is represented by `vObj` with an
identity tag, since the code never looks inside payloads. -/
inductive JsValue
  | vNull
  | vUndefined
  | vBool (b : Bool)
  | vNum (n : Int)
  | vStr (s : String)
  | vObj (tag : Nat)
deriving Repr, DecidableEq

/-- JavaScript truthiness: `null`, `undefined`, `false`, `0` and the empty
string are falsy, everything else (in our value universe) is truthy. -/
def truthy : JsValue → Bool
  | .vNull => false
  | .vUndefined => false
  | .vBool b => b
  | .vNum n => n != 0
  | .vStr s => s != ""
  | .vObj _ => true

/-- Coercion of a JavaScript value to a property key, as performed by
`this.listeners[data.channel]` in `onMessage` (transport.js line 76). -/
def jsKeyString : JsValue → String
  | .vNull => "null"
  | .vUndefined => "undefined"
  | .vBool b => if b then "true" else "false"
  | .vNum n => toString n
  | .vStr s => s
  | .vObj _ => "[object Object]"

/-- A runtime error escaping a method, such as the `TypeError` raised by
calling a missing method on a plain object. -/
inductive JsError
  | typeError (msg : String)
deriving Repr, DecidableEq

/-- A packet object as inspected by `send` and `onMessage`: the `channel`
and `payload` properties, each possibly absent (`none` plays the role of
an absent property, i.e. `undefined`). -/
structure Packet where
  channel : Option JsValue
  payload : Option JsValue
deriving Repr, DecidableEq

/-- `!obj.field` in JavaScript: true when the property is absent or holds
a falsy value.  This is the test `send` and `onMessage` apply to the
`channel` and `payload` fields (transport.js lines 75 and 107). -/
def fieldFalsy : Option JsValue → Bool
  | none => true
  | some v => !truthy v

/-- A subscriber callback, observed through its behaviour during a
dispatch: its identity, and whether invoking it raises an exception.
(Callbacks are application code external to the transport; the router
only calls them.) -/
structure Cb where
  id : Nat
  throws : Bool
deriving Repr, DecidableEq

/-- The `this.listeners` object of the transport: a map from channel name
to the ordered array of registered callbacks.  A channel key is present
in the association list exactly when the property is set on the object
(properties are only ever set to arrays, which are truthy in JavaScript,
including the empty array). -/
abbrev Registry := List (String × List Cb)

/-- Property lookup `this.listeners[event]`. -/
def regLookup (r : Registry) (event : String) : Option (List Cb) :=
  match r with
  | [] => none
  | (k, v) :: rest => if k = event then some v else regLookup rest event

/-- Property assignment `this.listeners[event] = cbs`. -/
def regSet (r : Registry) (event : String) (cbs : List Cb) : Registry :=
  match r with
  | [] => [(event, cbs)]
  | (k, v) :: rest =>
    if k = event then (k, cbs) :: rest else (k, v) :: regSet rest event cbs

/-- `listen(event, cb)` (transport.js lines 118-121): create the array if
absent, push the callback, return the new length (the JavaScript `push`
return value, used by callers as a handle). -/
def listen (r : Registry) (event : String) (cb : Cb) : Registry × Nat :=
  let cur := (regLookup r event).getD []
  (regSet r event (cur ++ [cb]), cur.length + 1)

/-- Result value of `unlisten`: `null`, or the array it returns. -/
inductive UnlistenRet
  | retNull
  | retArr (a : List Cb)
deriving Repr, DecidableEq

/-- `unlisten(event, cb)` (transport.js lines 128-139).
With no `cb`, the event's array is replaced by `[]` and `[]` is returned.
With a `cb`, the code computes `indexToRemove` by a `forEach` scan and
then executes `this.listeners.splice(indexToRemove, 1)`:
`this.listeners` is a plain object and has no `splice` method, so this
line raises a `TypeError` before any mutation of the registry. -/
def unlisten (r : Registry) (event : String) (cb : Option Cb) :
    Except JsError (Registry × UnlistenRet) :=
  match regLookup r event with
  | none => .ok (r, .retNull)
  | some _entry =>
    match cb with
    | none => .ok (regSet r event [], .retArr [])
    | some _c => .error (.typeError "this.listeners.splice is not a function")

/-- The `forEach(fn => fn(data.payload))` dispatch loop of `onMessage`
(transport.js line 77): callbacks are invoked in array order; an exception
raised by a callback propagates out of `forEach` immediately, so later
callbacks are not invoked.  Returns the identities of the callbacks that
were invoked and whether an exception escaped the loop. -/
def forEachInvoke : List Cb → List Nat × Bool
  | [] => ([], false)
  | c :: rest =>
    if c.throws then ([c.id], true)
    else
      let x := forEachInvoke rest
      (c.id :: x.1, x.2)

/-- An inbound websocket frame, at the interface of `JSON.parse` (an
external primitive): the raw text does not parse (`JSON.parse` throws);
or it parses to JSON `null` (the frame text is `"null"`, possibly
whitespace-padded) — the one parse result on which a property access
throws; or it parses to any other JSON value, on which reading the
`channel` and `payload` properties succeeds (objects yield their fields;
arrays, strings, numbers and booleans yield `undefined` for both, i.e. a
`Packet` with both fields `none`). -/
inductive RawFrame
  | unparseable (s : String)
  | parsedNull
  | parsed (p : Packet)
deriving Repr, DecidableEq

/-- Observable outcome of one `onMessage` call.  `uncaughtTypeError` is
the call raising a `TypeError` that escapes the router (nothing is
logged, no subscriber is invoked). -/
inductive MsgOutcome
  | parseDiagnostic
  | badMessageDiagnostic
  | uncaughtTypeError
  | noListeners
  | dispatched (invoked : List Nat) (exceptionEscaped : Bool)
deriving Repr, DecidableEq

/-- Identities of the subscriber callbacks invoked during an outcome. -/
def invokedOf : MsgOutcome → List Nat
  | .dispatched l _ => l
  | _ => []

/-- Whether an exception escaped the router during an outcome. -/
def escapedOf : MsgOutcome → Bool
  | .dispatched _ e => e
  | .uncaughtTypeError => true
  | _ => false

/-- `onMessage(rawData)` (transport.js lines 68-78): parse the frame
(`JSON.parse` in a try/catch; failure is logged and nothing else
happens).  The guard `!data.channel || !data.payload` (line 75) sits
outside the try/catch: when the parse result is `null`, the property
access `data.channel` itself raises a `TypeError` that escapes the
router.  For every other parse result the guard drops frames whose
`channel` or `payload` is absent or falsy with a diagnostic; the method
returns `false` silently when no listener array exists for the channel;
otherwise it runs the `forEach` dispatch.  The method never writes
`this.listeners`, so the registry is returned unchanged. -/
def onMessage (r : Registry) (raw : RawFrame) : Registry × MsgOutcome :=
  match raw with
  | .unparseable _ => (r, .parseDiagnostic)
  | .parsedNull => (r, .uncaughtTypeError)
  | .parsed data =>
    if fieldFalsy data.channel || fieldFalsy data.payload then
      (r, .badMessageDiagnostic)
    else
      match regLookup r (jsKeyString (data.channel.getD JsValue.vUndefined)) with
      | none => (r, .noListeners)
      | some cbs =>
        let x := forEachInvoke cbs
        (r, .dispatched x.1 x.2)

/-- One `ws` library socket, at its observable interface: the endpoint
and headers it was created with, its `readyState` (0 CONNECTING, 1 OPEN,
2 CLOSING, 3 CLOSED), whether the transport's `onClose` handler is
currently registered on its `close` event (`connect` registers it on
`open`; `removeAllListeners` removes it), and the frames the transport
has sent over it. -/
structure Socket where
  url : String
  hdrs : List (String × String)
  readyState : Nat
  hasCloseHandler : Bool
  sent : List Packet
deriving Repr, DecidableEq

/-- State of one `WebsocketTransport` instance, together with the sockets
it has created (indexed by creation order; `current` is the index held in
`this.ws`) and the socket `close` events that have been initiated but not
yet delivered (the `ws` library emits `close` asynchronously, never
inside the call that initiates the closing). -/
structure TState where
  endpoint : String
  headers : List (String × String)
  sockets : List Socket
  current : Option Nat
  pingIntervals : Nat
  probeOutstanding : Bool
  listeners : Registry
  pendingClose : List Nat
  connectCalls : Nat
deriving Repr, DecidableEq

/-- Index into the socket history. -/
def getSock : List Socket → Nat → Option Socket
  | [], _ => none
  | s :: _, 0 => some s
  | _ :: rest, n + 1 => getSock rest n

/-- Update the socket at an index (identity when out of range). -/
def updateSock : List Socket → Nat → (Socket → Socket) → List Socket
  | [], _, _ => []
  | s :: rest, 0, f => f s :: rest
  | s :: rest, n + 1, f => s :: updateSock rest n f

/-- The constructor (transport.js lines 12-19): store the endpoint and
headers, `this.ws = null`, `this.pingInterval = null`,
`this.listeners = {}`. -/
def mkTransport (endpoint : String) (headers : List (String × String)) : TState :=
  { endpoint := endpoint
    headers := headers
    sockets := []
    current := none
    pingIntervals := 0
    probeOutstanding := false
    listeners := []
    pendingClose := []
    connectCalls := 0 }

/-- `connect(cb)` (transport.js lines 25-52): create a new socket towards
the stored endpoint with the stored headers and assign it to `this.ws`.
The socket starts CONNECTING; the `close` handler is only registered once
the `open` event fires.  `connectCalls` counts the invocations of
`connect`, so reconnect attempts are observable. -/
def connectT (st : TState) : TState :=
  let s : Socket :=
    { url := st.endpoint
      hdrs := st.headers
      readyState := 0
      hasCloseHandler := false
      sent := [] }
  { st with
      sockets := st.sockets ++ [s]
      current := some st.sockets.length
      connectCalls := st.connectCalls + 1 }

/-- The `open` event firing on the current socket (transport.js lines
38-46): the socket is OPEN, `this.ws.on('close', this.onClose...)` is
registered, and `this.pingInterval = setInterval(...)` starts a new
heartbeat interval.  The assignment overwrites the previous interval
handle without `clearInterval`, so intervals accumulate; `pingIntervals`
counts the intervals currently running (no code in the repository ever
calls `clearInterval`). -/
def openSucceeds (st : TState) : TState :=
  match st.current with
  | none => st
  | some sid =>
    { st with
        sockets := updateSock st.sockets sid
          (fun s => { s with readyState := 1, hasCloseHandler := true })
        pingIntervals := st.pingIntervals + 1 }

/-- `socket.terminate()` on a given socket: the socket becomes CLOSED and,
unless it was already CLOSED, a `close` event is queued for asynchronous
delivery to whatever handlers the socket has at delivery time. -/
def terminateSock (st : TState) (sid : Nat) : TState :=
  match getSock st.sockets sid with
  | none => st
  | some s =>
    if s.readyState = 3 then st
    else
      { st with
          sockets := updateSock st.sockets sid (fun t => { t with readyState := 3 })
          pendingClose := st.pendingClose ++ [sid] }

/-- `this.ws.close()`: begin a graceful close of the current socket (it
becomes CLOSING and a `close` event is queued); no effect on a socket
already CLOSING or CLOSED. -/
def wsClose (st : TState) : TState :=
  match st.current with
  | none => st
  | some sid =>
    match getSock st.sockets sid with
    | none => st
    | some s =>
      if s.readyState ≥ 2 then st
      else
        { st with
            sockets := updateSock st.sockets sid (fun t => { t with readyState := 2 })
            pendingClose := st.pendingClose ++ [sid] }

/-- `disconnect()` (transport.js lines 144-147): the body is exactly
`return this.ws.close()` — no handler is removed, no interval or timeout
is cleared, and `this.listeners` is untouched. -/
def disconnectT (st : TState) : TState :=
  wsClose st

/-- `onClose()` (transport.js lines 57-62): `this.ws.terminate()`,
`this.ws.removeAllListeners()`, then `this.connect(...)` — all on the
socket `this.ws` holds at the moment the handler runs, which need not be
the socket whose `close` event fired. -/
def onCloseT (st : TState) : TState :=
  match st.current with
  | none => st
  | some sid =>
    let st1 := terminateSock st sid
    let st2 :=
      { st1 with
          sockets := updateSock st1.sockets sid
            (fun s => { s with hasCloseHandler := false }) }
    connectT st2

/-- Delivery of the oldest pending socket `close` event: the socket
completes closing (readyState CLOSED); if the transport's `onClose`
handler is still registered on that socket, it runs. -/
def deliverClose (st : TState) : TState :=
  match st.pendingClose with
  | [] => st
  | sid :: rest =>
    let st1 :=
      { st with
          pendingClose := rest
          sockets := updateSock st.sockets sid (fun s => { s with readyState := 3 }) }
    match getSock st.sockets sid with
    | none => st1
    | some s => if s.hasCloseHandler then onCloseT st1 else st1

/-- `ping()` starting a probe (transport.js lines 83-100): `setTimeout`
arms the 5-second liveness deadline and `this.ws.ping(...)` sends the
application-level ping.  `probeOutstanding` records that the deadline
timeout is pending. -/
def pingT (st : TState) : TState :=
  { st with probeOutstanding := true }

/-- A `pong` arriving before the deadline: `clearTimeout(timeout)`. -/
def pongReceivedT (st : TState) : TState :=
  { st with probeOutstanding := false }

/-- The liveness deadline firing with no pong — `noResponse` (transport.js
lines 84-89): `clearTimeout(timeout)`, `this.ws.terminate()` (without
removing the socket's handlers), then `this.connect(...)`.  The timeout
only fires while it is pending. -/
def noResponseT (st : TState) : TState :=
  if st.probeOutstanding then
    match st.current with
    | none => st
    | some sid => connectT (terminateSock { st with probeOutstanding := false } sid)
  else st

/-- `isConnected()` (transport.js lines 152-154):
`this.ws && this.ws.readyState < 2`. -/
def isConnected (st : TState) : Bool :=
  match st.current with
  | none => false
  | some sid =>
    match getSock st.sockets sid with
    | none => false
    | some s => decide (s.readyState < 2)

/-- `send(packet)` (transport.js lines 106-111): `false` when
`isConnected()` is false; `false` when `!packet.channel ||
!packet.payload`; otherwise `JSON.stringify` the packet, transmit it on
the current socket, and return `true`. -/
def sendT (st : TState) (p : Packet) : TState × Bool :=
  if !isConnected st then (st, false)
  else if fieldFalsy p.channel || fieldFalsy p.payload then (st, false)
  else
    match st.current with
    | none => (st, false)
    | some sid =>
      ({ st with
          sockets := updateSock st.sockets sid
            (fun s => { s with sent := s.sent ++ [p] }) },
        true)

/-- The operations and external events that can act on a transport. -/
inductive TOp
  | opConnect
  | opOpenOk
  | opDisconnect
  | opDeliverClose
  | opPing
  | opPong
  | opNoResponse
  | opListen (ch : String) (cb : Cb)
  | opUnlistenAll (ch : String)
  | opUnlistenOne (ch : String) (cb : Cb)
  | opSend (p : Packet)
deriving Repr, DecidableEq

/-- Apply one operation.  `opUnlistenOne` mirrors `unlisten(event, cb)`
with a callback given: when the channel is registered, that call raises a
`TypeError` before mutating anything (see `unlisten`), so the state is
unchanged; when the channel is unregistered it returns `null`, also
without mutating. -/
def applyOp (st : TState) : TOp → TState
  | .opConnect => connectT st
  | .opOpenOk => openSucceeds st
  | .opDisconnect => disconnectT st
  | .opDeliverClose => deliverClose st
  | .opPing => pingT st
  | .opPong => pongReceivedT st
  | .opNoResponse => noResponseT st
  | .opListen ch cb => { st with listeners := (listen st.listeners ch cb).1 }
  | .opUnlistenAll ch =>
    match unlisten st.listeners ch none with
    | .ok (r, _) => { st with listeners := r }
    | .error _ => st
  | .opUnlistenOne _ _ => st
  | .opSend p => (sendT st p).1

/-- Apply a sequence of operations in order. -/
def applyOps (st : TState) (ops : List TOp) : TState :=
  ops.foldl applyOp st

/-- Agent configuration (src/index.js constructor): the three credential
strings. -/
structure AgentConfig where
  publicKey : String
  secretKey : String
  appName : String
deriving Repr, DecidableEq

/-- Modelled from the spec: `constants.js` is not under src/; the spec
says the auth headers carry the agent (PM2) version.  Its concrete value
never matters to any claim. -/
def PM2_VERSION : String := "pm2-version"

/-- Modelled from the spec: `constants.js` is not under src/; the spec
says the auth headers carry the protocol version.  Its concrete value
never matters to any claim. -/
def PROTOCOL_VERSION : String := "protocol-version"

/-- The upgrade headers built in `start()` (src/index.js lines 44-50). -/
def mkHeaders (c : AgentConfig) : List (String × String) :=
  [("X-KM-PUBLIC", c.publicKey),
   ("X-KM-SECRET", c.secretKey),
   ("X-KM-SERVER", c.appName),
   ("X-PM2-VERSION", PM2_VERSION),
   ("X-PROTOCOL-VERSION", PROTOCOL_VERSION)]

/-- The `endpoints` object of a verification response; the code uses its
`ws` field as the websocket endpoint. -/
structure EndpointsObj where
  ws : String
deriving Repr, DecidableEq

/-- The body of the `verifyPM2` HTTP response, at the fields
`checkCredentials` inspects: `disabled`, `pending` and `active` are
arbitrary possibly-absent values (the code compares them with `===` to
`true` resp. `false`), and `endpoints` is the endpoints object or absent
(`!data.endpoints` tests its presence; a present object is truthy). -/
structure VerifyResp where
  disabled : Option JsValue
  pending : Option JsValue
  active : Option JsValue
  endpoints : Option EndpointsObj
deriving Repr, DecidableEq

/-- The decision logic of `checkCredentials` (src/index.js lines 125-141)
applied to the HTTP call's outcome: propagate a transport error;
otherwise `data.disabled === true || data.pending === true` fails with
"Interactor disabled.", `data.active === false` fails with "Interactor
not active.", `!data.endpoints` fails with the missing-endpoints error,
else the endpoints are returned. -/
def checkCredentialsResult (httpResult : Except String VerifyResp) :
    Except String EndpointsObj :=
  match httpResult with
  | .error e => .error e
  | .ok data =>
    if data.disabled = some (JsValue.vBool true) ∨
        data.pending = some (JsValue.vBool true) then
      .error "Interactor disabled."
    else if data.active = some (JsValue.vBool false) then
      .error "Interactor not active."
    else
      match data.endpoints with
      | none => .error "Endpoints field not present."
      | some eps => .ok eps

/-- The agent's own fields touched by `start()`: `this.transport`,
`this.statusInterval` and `this.config.endpoint`. -/
structure AgentState where
  transport : Option TState
  statusIntervalActive : Bool
  configEndpoint : Option String
deriving Repr, DecidableEq

/-- Outcome of the `transport.connect` attempt made inside `start()` (the
websocket handshake is external). -/
inductive ConnectOutcome
  | connOk
  | connFail (e : String)
deriving Repr, DecidableEq

/-- `start()` (src/index.js lines 38-66): on a credential error the
promise rejects and nothing is assigned; otherwise `this.transport` is
assigned a new transport (before the connect outcome is known) and
`connect` is called; on connect failure the promise rejects (with the
transport already assigned); on success the endpoint is stored and the
1-second status interval starts.  Returns the resulting agent fields and
the promise outcome. -/
def startAgent (cfg : AgentConfig) (a : AgentState)
    (httpResult : Except String VerifyResp) (conn : ConnectOutcome) :
    AgentState × Except String Unit :=
  match checkCredentialsResult httpResult with
  | .error e => (a, .error e)
  | .ok eps =>
    let tC := connectT (mkTransport eps.ws (mkHeaders cfg))
    match conn with
    | .connFail e => ({ a with transport := some tC }, .error e)
    | .connOk =>
      ({ a with
          transport := some (openSucceeds tC)
          statusIntervalActive := true
          configEndpoint := some eps.ws },
        .ok ())

/-- Frames transmitted so far on the socket currently held in `this.ws`
(empty when there is no current socket). -/
def currentSent (st : TState) : List Packet :=
  match st.current with
  | none => []
  | some sid =>
    match getSock st.sockets sid with
    | none => []
    | some s => s.sent

/-- Every socket in the history targets the given endpoint with the given
headers. -/
def socketsMatch (u : String) (h : List (String × String)) (l : List Socket) : Bool :=
  l.all fun s => s.url == u && s.hdrs == h

/-- The invariant that a transport constructed at `(u, h)` keeps: the
stored endpoint and headers are the construction values, and every socket
it ever created was opened towards exactly those values. -/
def endpointInv (u : String) (h : List (String × String)) (st : TState) : Prop :=
  st.endpoint = u ∧ st.headers = h ∧ socketsMatch u h st.sockets = true

/-- A concrete transport that has connected successfully: one socket,
open, with the `close` handler registered and the heartbeat interval
running. -/
def connectedDemo : TState :=
  openSucceeds (connectT (mkTransport "wss://example/x" [("X-KM-PUBLIC", "pub")]))

/-! ### Helper lemmas about the socket history -/

theorem getSock_updateSock_self (l : List Socket) (i : Nat) (f : Socket → Socket) :
    getSock (updateSock l i f) i = (getSock l i).map f := by
  induction l generalizing i with
  | nil => simp [getSock, updateSock]
  | cons s rest ih =>
    cases i with
    | zero => simp [getSock, updateSock]
    | succ n => simpa [getSock, updateSock] using ih n

theorem getSock_updateSock_ne (l : List Socket) (i j : Nat) (f : Socket → Socket)
    (hij : i ≠ j) : getSock (updateSock l i f) j = getSock l j := by
  induction l generalizing i j with
  | nil => simp [getSock, updateSock]
  | cons s rest ih =>
    cases i with
    | zero =>
      cases j with
      | zero => exact absurd rfl hij
      | succ m => simp [getSock, updateSock]
    | succ n =>
      cases j with
      | zero => simp [getSock, updateSock]
      | succ m =>
        simpa [getSock, updateSock] using ih n m (by omega)

theorem length_updateSock (l : List Socket) (i : Nat) (f : Socket → Socket) :
    (updateSock l i f).length = l.length := by
  induction l generalizing i with
  | nil => simp [updateSock]
  | cons s rest ih =>
    cases i with
    | zero => simp [updateSock]
    | succ n => simpa [updateSock] using ih n

theorem getSock_some_lt (l : List Socket) (i : Nat) (s : Socket)
    (h : getSock l i = some s) : i < l.length := by
  induction l generalizing i with
  | nil => simp [getSock] at h
  | cons t rest ih =>
    cases i with
    | zero => simp
    | succ n =>
      have := ih n (by simpa [getSock] using h)
      simpa using Nat.succ_lt_succ this

theorem getSock_append_lt (l m : List Socket) (i : Nat) (h : i < l.length) :
    getSock (l ++ m) i = getSock l i := by
  induction l generalizing i with
  | nil => simp at h
  | cons s rest ih =>
    cases i with
    | zero => simp [getSock]
    | succ n =>
      simpa [getSock] using ih n (by simpa using Nat.lt_of_succ_lt_succ h)

theorem getSock_append_length (l : List Socket) (x : Socket) :
    getSock (l ++ [x]) l.length = some x := by
  induction l with
  | nil => simp [getSock]
  | cons s rest ih => simpa [getSock] using ih

/-- The `forEach` dispatch loop on a list whose prefix does not throw
followed by a throwing callback: exactly the prefix and the thrower are
invoked, the exception escapes, and the callbacks after the thrower are
not invoked. -/
theorem forEachInvoke_prefix_throws (pre post : List Cb) (t : Cb)
    (hpre : ∀ c ∈ pre, c.throws = false) (ht : t.throws = true) :
    forEachInvoke (pre ++ t :: post) = (pre.map Cb.id ++ [t.id], true) := by
  induction pre with
  | nil => simp [forEachInvoke, ht]
  | cons c rest ih =>
    have hc : c.throws = false := hpre c (by simp)
    have hrest := ih fun d hd => hpre d (by simp [hd])
    simp [forEachInvoke, hc, hrest]

/-! ### Claim theorems -/

/-- Claim C4, counterexample: with callbacks 1 (throwing) and 2 registered
on channel "c", dispatching an inbound message on "c" invokes only
callback 1; the exception escapes and callback 2 of the same dispatch is
never run, contrary to the claim. -/
theorem C4_exception_stops_dispatch_cex :
    onMessage [("c", [⟨1, true⟩, ⟨2, false⟩])]
        (RawFrame.parsed ⟨some (JsValue.vStr "c"), some (JsValue.vStr "p")⟩)
      = ([("c", [⟨1, true⟩, ⟨2, false⟩])], MsgOutcome.dispatched [1] true) ∧
    2 ∉ invokedOf (onMessage [("c", [⟨1, true⟩, ⟨2, false⟩])]
        (RawFrame.parsed ⟨some (JsValue.vStr "c"), some (JsValue.vStr "p")⟩)).2 := by
  decide

/-- Claim C4 (amended): the router dispatches with a bare `forEach`, so an
exception raised by one callback propagates out of the dispatch and the
remaining callbacks of the same dispatch do not run: exactly the
non-throwing prefix and the thrower are invoked.  The Subscriber Registry
itself is unchanged by the dispatch (`onMessage` never writes it). -/
theorem C4_amended_exception_aborts_dispatch (ch : String) (pv : JsValue)
    (pre post : List Cb) (t : Cb) (hch : ch ≠ "") (hpv : truthy pv = true)
    (hpre : ∀ c ∈ pre, c.throws = false) (ht : t.throws = true) :
    onMessage [(ch, pre ++ t :: post)]
        (RawFrame.parsed ⟨some (JsValue.vStr ch), some pv⟩)
      = ([(ch, pre ++ t :: post)],
         MsgOutcome.dispatched (pre.map Cb.id ++ [t.id]) true) := by
  have hkey : fieldFalsy (some (JsValue.vStr ch)) = false := by
    simp [fieldFalsy, truthy, hch]
  have hpay : fieldFalsy (some pv) = false := by simp [fieldFalsy, hpv]
  simp [onMessage, hkey, hpay, jsKeyString, regLookup,
    forEachInvoke_prefix_throws pre post t hpre ht]

/-- Claim C4, witness for the amended theorem at a concrete registry. -/
theorem C4_amended_witness :
    onMessage [("c", [⟨1, true⟩, ⟨2, false⟩, ⟨3, false⟩])]
        (RawFrame.parsed ⟨some (JsValue.vStr "c"), some (JsValue.vStr "p")⟩)
      = ([("c", [⟨1, true⟩, ⟨2, false⟩, ⟨3, false⟩])],
         MsgOutcome.dispatched [1] true) := by
  have h := C4_amended_exception_aborts_dispatch "c" (JsValue.vStr "p")
    [] [⟨2, false⟩, ⟨3, false⟩] ⟨1, true⟩ (by decide) (by decide)
    (by intro c hc; cases hc) (by decide)
  simpa using h

/-- Claim C5, evaluation at the failing input: with callbacks 0 and 1
registered on "chan", `unlisten("chan", cb0)` raises a `TypeError`
(the code calls `splice` on the plain `this.listeners` object, transport.js
line 138) instead of removing the handle; nothing is removed. -/
theorem C5_unlisten_single_handle_throws :
    unlisten [("chan", [⟨0, false⟩, ⟨1, false⟩]), ("other", [⟨2, false⟩])]
        "chan" (some ⟨0, false⟩)
      = Except.error (JsError.typeError "this.listeners.splice is not a function") :=
  rfl

/-- Claim C7, counterexample: the inbound frame `"null"` parses
(`JSON.parse` succeeds with `null`), and the parse result lacks both a
`channel` field and a `payload` field; yet the router does not discard it
with a diagnostic — the guard `!data.channel` (transport.js line 75,
outside the try/catch) raises a `TypeError` on the `null` value and the
error escapes the router, though no subscriber is invoked. -/
theorem C7_parsed_null_throws_cex :
    onMessage [("known", [⟨5, false⟩])] RawFrame.parsedNull
      = ([("known", [⟨5, false⟩])], MsgOutcome.uncaughtTypeError) ∧
    escapedOf (onMessage [("known", [⟨5, false⟩])] RawFrame.parsedNull).2 = true ∧
    invokedOf (onMessage [("known", [⟨5, false⟩])] RawFrame.parsedNull).2 = [] := by
  decide

/-- Claim C7 (amended): a frame whose text does not parse is discarded
with a parse diagnostic, invoking no subscriber and letting no error
escape; a frame that parses to JSON `null` — which lacks both fields — is
not discarded with a diagnostic: the field guard itself raises a
`TypeError` that escapes the router, though no subscriber is invoked; a
frame that parses to any other value lacking both `channel` and `payload`
is discarded with a diagnostic, invoking no subscriber; a well-formed
frame whose channel has no registry entry is discarded silently (no
diagnostic, no subscriber, no error); and a well-formed frame whose
channel has an empty subscriber array dispatches to nobody without
error. -/
theorem C7_amended_router_discards (r : Registry) :
    (onMessage r RawFrame.parsedNull = (r, MsgOutcome.uncaughtTypeError) ∧
        escapedOf (onMessage r RawFrame.parsedNull).2 = true ∧
        invokedOf (onMessage r RawFrame.parsedNull).2 = []) ∧
    (∀ s : String,
        onMessage r (RawFrame.unparseable s) = (r, MsgOutcome.parseDiagnostic) ∧
        invokedOf (onMessage r (RawFrame.unparseable s)).2 = [] ∧
        escapedOf (onMessage r (RawFrame.unparseable s)).2 = false) ∧
    (∀ p : Packet, p.channel = none → p.payload = none →
        onMessage r (RawFrame.parsed p) = (r, MsgOutcome.badMessageDiagnostic) ∧
        invokedOf (onMessage r (RawFrame.parsed p)).2 = [] ∧
        escapedOf (onMessage r (RawFrame.parsed p)).2 = false) ∧
    (∀ (p : Packet) (ch : JsValue), p.channel = some ch → truthy ch = true →
        fieldFalsy p.payload = false → regLookup r (jsKeyString ch) = none →
        onMessage r (RawFrame.parsed p) = (r, MsgOutcome.noListeners) ∧
        invokedOf (onMessage r (RawFrame.parsed p)).2 = [] ∧
        escapedOf (onMessage r (RawFrame.parsed p)).2 = false) ∧
    (∀ (p : Packet) (ch : JsValue), p.channel = some ch → truthy ch = true →
        fieldFalsy p.payload = false → regLookup r (jsKeyString ch) = some [] →
        onMessage r (RawFrame.parsed p) = (r, MsgOutcome.dispatched [] false)) := by
  refine ⟨⟨rfl, rfl, rfl⟩, fun s => ?_, fun p h1 h2 => ?_,
    fun p ch h1 h2 h3 h4 => ?_, fun p ch h1 h2 h3 h4 => ?_⟩
  · simp [onMessage, invokedOf, escapedOf]
  · simp [onMessage, h1, h2, fieldFalsy, invokedOf, escapedOf]
  · have hf : fieldFalsy (some ch) = false := by simp [fieldFalsy, h2]
    simp [onMessage, hf, h3, h1, h4, invokedOf, escapedOf]
  · have hf : fieldFalsy (some ch) = false := by simp [fieldFalsy, h2]
    simp [onMessage, hf, h3, h1, h4, forEachInvoke]

/-- Claim C7, witness for the amended theorem: the concrete frames of the
claim — including the `"null"` frame — against a registry with a
populated channel and an emptied channel. -/
theorem C7_amended_witness :
    onMessage [("known", [⟨5, false⟩]), ("empty", [])] RawFrame.parsedNull
      = ([("known", [⟨5, false⟩]), ("empty", [])], MsgOutcome.uncaughtTypeError) ∧
    onMessage [("known", [⟨5, false⟩]), ("empty", [])] (RawFrame.unparseable "not-json")
      = ([("known", [⟨5, false⟩]), ("empty", [])], MsgOutcome.parseDiagnostic) ∧
    onMessage [("known", [⟨5, false⟩]), ("empty", [])] (RawFrame.parsed ⟨none, none⟩)
      = ([("known", [⟨5, false⟩]), ("empty", [])], MsgOutcome.badMessageDiagnostic) ∧
    onMessage [("known", [⟨5, false⟩]), ("empty", [])]
        (RawFrame.parsed ⟨some (JsValue.vStr "nosubs"), some (JsValue.vNum 7)⟩)
      = ([("known", [⟨5, false⟩]), ("empty", [])], MsgOutcome.noListeners) ∧
    onMessage [("known", [⟨5, false⟩]), ("empty", [])]
        (RawFrame.parsed ⟨some (JsValue.vStr "empty"), some (JsValue.vNum 7)⟩)
      = ([("known", [⟨5, false⟩]), ("empty", [])], MsgOutcome.dispatched [] false) := by
  refine ⟨((C7_amended_router_discards _).1).1,
    ((C7_amended_router_discards _).2.1 "not-json").1,
    ((C7_amended_router_discards _).2.2.1 ⟨none, none⟩ rfl rfl).1,
    ((C7_amended_router_discards _).2.2.2.1 ⟨some (JsValue.vStr "nosubs"), some (JsValue.vNum 7)⟩
      (JsValue.vStr "nosubs") rfl (by decide) (by decide) (by decide)).1,
    (C7_amended_router_discards _).2.2.2.2 ⟨some (JsValue.vStr "empty"), some (JsValue.vNum 7)⟩
      (JsValue.vStr "empty") rfl (by decide) (by decide) (by decide)⟩

/-- Claim C10 (confirmed): `send` and the inbound router test truthiness,
not presence: a packet whose `payload` is present but equal to `0`,
`false`, the empty string or `null` is rejected by `send` with no side
effect, and an inbound frame carrying such a payload is dropped with the
bad-message diagnostic, invoking no subscriber. -/
theorem C10_falsy_payload_rejected (st : TState) (p : Packet) (v : JsValue)
    (r : Registry) (hp : p.payload = some v)
    (hv : v = JsValue.vNum 0 ∨ v = JsValue.vBool false ∨
          v = JsValue.vStr "" ∨ v = JsValue.vNull) :
    sendT st p = (st, false) ∧
    onMessage r (RawFrame.parsed p) = (r, MsgOutcome.badMessageDiagnostic) ∧
    invokedOf (onMessage r (RawFrame.parsed p)).2 = [] := by
  have hf : fieldFalsy p.payload = true := by
    rcases hv with h | h | h | h <;> simp [hp, h, fieldFalsy, truthy]
  refine ⟨?_, ?_, ?_⟩
  · simp [sendT, hf]
  · simp [onMessage, hf]
  · simp [onMessage, hf, invokedOf]

/-- Claim C10, witness: payload `0` on a connected transport and at the
router. -/
theorem C10_witness :
    sendT connectedDemo ⟨some (JsValue.vStr "c"), some (JsValue.vNum 0)⟩
      = (connectedDemo, false) ∧
    onMessage [("c", [⟨1, false⟩])]
        (RawFrame.parsed ⟨some (JsValue.vStr "c"), some (JsValue.vNum 0)⟩)
      = ([("c", [⟨1, false⟩])], MsgOutcome.badMessageDiagnostic) := by
  have h := C10_falsy_payload_rejected connectedDemo
    ⟨some (JsValue.vStr "c"), some (JsValue.vNum 0)⟩ (JsValue.vNum 0)
    [("c", [⟨1, false⟩])] rfl (Or.inl rfl)
  exact ⟨h.1, h.2.1⟩

/-- Claim C8 (confirmed): when credential verification answers with
`disabled: true` (or `pending: true`), `start()` rejects with the
credential error and the agent's `transport` field is never assigned. -/
theorem C8_disabled_no_transport (cfg : AgentConfig) (a : AgentState)
    (resp : VerifyResp) (conn : ConnectOutcome)
    (h : resp.disabled = some (JsValue.vBool true) ∨
         resp.pending = some (JsValue.vBool true)) :
    startAgent cfg a (Except.ok resp) conn = (a, Except.error "Interactor disabled.") ∧
    (startAgent cfg a (Except.ok resp) conn).1.transport = a.transport := by
  have hc : checkCredentialsResult (Except.ok resp)
      = Except.error "Interactor disabled." := by
    simp only [checkCredentialsResult]
    rw [if_pos h]
  simp [startAgent, hc]

/-- Claim C8, witness: a concrete `disabled: true` response on a fresh
agent. -/
theorem C8_witness :
    startAgent ⟨"pub", "sec", "app"⟩ ⟨none, false, none⟩
        (Except.ok ⟨some (JsValue.vBool true), none, none, none⟩) ConnectOutcome.connOk
      = (⟨none, false, none⟩, Except.error "Interactor disabled.") ∧
    (startAgent ⟨"pub", "sec", "app"⟩ ⟨none, false, none⟩
        (Except.ok ⟨some (JsValue.vBool true), none, none, none⟩)
        ConnectOutcome.connOk).1.transport = none :=
  C8_disabled_no_transport ⟨"pub", "sec", "app"⟩ ⟨none, false, none⟩
    ⟨some (JsValue.vBool true), none, none, none⟩ ConnectOutcome.connOk (Or.inl rfl)

/-- Claim C2, counterexample: on a transport whose connect has succeeded,
after `disconnect()` returns the heartbeat interval is still running
(`pingIntervals = 1`; `disconnect` never calls `clearInterval`), and its
next tick still starts a heartbeat probe. -/
theorem C2_timers_survive_disconnect_cex :
    (disconnectT connectedDemo).pingIntervals = 1 ∧
    (pingT (disconnectT connectedDemo)).probeOutstanding = true := by
  decide

/-- Claim C2 (amended): `disconnect()` cancels no timer: the body of
`disconnect` is only `this.ws.close()`, so the heartbeat interval count
and any outstanding probe state are exactly what they were before the
call, and a heartbeat probe can still fire after `disconnect()` returns
(the periodic status timer is likewise never cancelled anywhere in the
code). -/
theorem C2_amended_disconnect_cancels_no_timer (st : TState) :
    (disconnectT st).pingIntervals = st.pingIntervals ∧
    (disconnectT st).probeOutstanding = st.probeOutstanding ∧
    (pingT (disconnectT st)).probeOutstanding = true := by
  unfold disconnectT wsClose
  cases hcur : st.current with
  | none => simp [pingT]
  | some sid =>
    cases hget : getSock st.sockets sid with
    | none => simp [hget, pingT]
    | some s =>
      by_cases hrs : s.readyState ≥ 2 <;> simp [hget, hrs, pingT]

/-- Claim C6, counterexample: on a connected transport, a packet whose
`channel` and `payload` fields are both present but whose payload is the
(falsy) empty string is rejected by `send` — the claim's positive branch
(fields present, connected, hence transmit and return true) is false. -/
theorem C6_present_falsy_payload_cex :
    isConnected connectedDemo = true ∧
    (Packet.mk (some (JsValue.vStr "x")) (some (JsValue.vStr ""))).channel.isSome = true ∧
    (Packet.mk (some (JsValue.vStr "x")) (some (JsValue.vStr ""))).payload.isSome = true ∧
    sendT connectedDemo ⟨some (JsValue.vStr "x"), some (JsValue.vStr "")⟩
      = (connectedDemo, false) := by
  decide

/-- Claim C6 (amended): `send(packet)` returns false with no side effect
whenever `isConnected()` is false or the packet's `channel` or `payload`
field is missing or falsy; otherwise it transmits the packet on the
current socket and returns true. -/
theorem C6_amended_send_contract (st : TState) (p : Packet) :
    (isConnected st = false → sendT st p = (st, false)) ∧
    ((fieldFalsy p.channel || fieldFalsy p.payload) = true → sendT st p = (st, false)) ∧
    (isConnected st = true → fieldFalsy p.channel = false → fieldFalsy p.payload = false →
      (sendT st p).2 = true ∧
      currentSent (sendT st p).1 = currentSent st ++ [p] ∧
      (sendT st p).1.current = st.current ∧
      (sendT st p).1.listeners = st.listeners) := by
  refine ⟨fun h => ?_, fun h => ?_, fun h1 h2 h3 => ?_⟩
  · simp [sendT, h]
  · simp [sendT, h]
  · cases hcur : st.current with
    | none => simp [isConnected, hcur] at h1
    | some sid =>
      cases hget : getSock st.sockets sid with
      | none => simp [isConnected, hcur, hget] at h1
      | some s =>
        have hs : sendT st p = ({ st with sockets := updateSock st.sockets sid (fun t => { t with sent := t.sent ++ [p] }) }, true) := by
          simp [sendT, h1, h2, h3, hcur]
        refine ⟨by simp [hs], ?_, by simp [hs, hcur], by simp [hs]⟩
        simp [hs, currentSent, hcur, getSock_updateSock_self, hget]

/-- Claim C6, witness for the amended contract: a disconnected transport
rejects, a malformed packet rejects, and a well-formed packet on the
connected transport is transmitted. -/
theorem C6_amended_witness :
    sendT (mkTransport "wss://example/x" [("X-KM-PUBLIC", "pub")])
        ⟨some (JsValue.vStr "c"), some (JsValue.vNum 1)⟩
      = (mkTransport "wss://example/x" [("X-KM-PUBLIC", "pub")], false) ∧
    sendT connectedDemo ⟨some (JsValue.vStr "c"), none⟩ = (connectedDemo, false) ∧
    (sendT connectedDemo ⟨some (JsValue.vStr "c"), some (JsValue.vNum 1)⟩).2 = true ∧
    currentSent (sendT connectedDemo ⟨some (JsValue.vStr "c"), some (JsValue.vNum 1)⟩).1
      = currentSent connectedDemo ++ [⟨some (JsValue.vStr "c"), some (JsValue.vNum 1)⟩] := by
  have h1 := (C6_amended_send_contract
    (mkTransport "wss://example/x" [("X-KM-PUBLIC", "pub")])
    ⟨some (JsValue.vStr "c"), some (JsValue.vNum 1)⟩).1 (by decide)
  have h2 := (C6_amended_send_contract connectedDemo
    ⟨some (JsValue.vStr "c"), none⟩).2.1 (by decide)
  have h3 := (C6_amended_send_contract connectedDemo
    ⟨some (JsValue.vStr "c"), some (JsValue.vNum 1)⟩).2.2
    (by decide) (by decide) (by decide)
  exact ⟨h1, h2, h3.1, h3.2.1⟩

/-- Claim C1, counterexample: on a transport whose connect has succeeded,
`disconnect()` makes no connect call itself, but when the close it
initiated completes, the still-registered `close` handler runs `onClose`
and a reconnect attempt follows (the connect-call count rises from 1 to
2) — contrary to the claim that no reconnect attempt ever follows an
intentional `disconnect()`. -/
theorem C1_reconnect_follows_disconnect_cex :
    (disconnectT connectedDemo).connectCalls = 1 ∧
    (deliverClose (disconnectT connectedDemo)).connectCalls = 2 := by
  decide

/-- Claim C1 (amended): `disconnect()` tears down the physical connection,
but it does not remove the `close` handler registered at connect time and
nothing distinguishes intentional shutdown from failure: for every
transport whose current socket is open with the close handler installed,
the close event resulting from `disconnect()` triggers exactly one
reconnect attempt. -/
theorem C1_amended_disconnect_triggers_reconnect (st : TState) (sid : Nat) (s : Socket)
    (hcur : st.current = some sid) (hget : getSock st.sockets sid = some s)
    (hopen : s.readyState < 2) (hch : s.hasCloseHandler = true)
    (hpend : st.pendingClose = []) :
    (disconnectT st).connectCalls = st.connectCalls ∧
    (deliverClose (disconnectT st)).connectCalls = st.connectCalls + 1 := by
  have hno : ¬ s.readyState ≥ 2 := by omega
  have hd : disconnectT st = { st with sockets := updateSock st.sockets sid (fun t => { t with readyState := 2 }), pendingClose := st.pendingClose ++ [sid] } := by
    simp [disconnectT, wsClose, hcur, hget, hno]
  refine ⟨by simp [hd], ?_⟩
  rw [hd, hpend]
  have hget2 : getSock (updateSock st.sockets sid (fun t => { t with readyState := 2 })) sid
      = some { s with readyState := 2 } := by
    rw [getSock_updateSock_self, hget]
    rfl
  have hget3 : getSock (updateSock (updateSock st.sockets sid (fun t => { t with readyState := 2 })) sid (fun t => { t with readyState := 3 })) sid
      = some { s with readyState := 3 } := by
    rw [getSock_updateSock_self, hget2]
    rfl
  simp [deliverClose, hget2, hch, onCloseT, hcur, terminateSock, hget3, connectT]

/-- Claim C1, witness for the amended theorem at the concrete connected
transport. -/
theorem C1_amended_witness :
    (disconnectT connectedDemo).connectCalls = connectedDemo.connectCalls ∧
    (deliverClose (disconnectT connectedDemo)).connectCalls = connectedDemo.connectCalls + 1 :=
  C1_amended_disconnect_triggers_reconnect connectedDemo 0
    { url := "wss://example/x", hdrs := [("X-KM-PUBLIC", "pub")],
      readyState := 1, hasCloseHandler := true, sent := [] }
    rfl (by decide) (by decide) rfl rfl

/-- Claim C3, counterexample: on the connected transport (one connect
call so far) a probe goes unanswered; `noResponse` terminates the socket
and makes one reconnect attempt (connect calls: 2), but the terminated
socket's close handler was not removed, so delivering its close event
runs `onClose`, which terminates the replacement socket and makes a
second reconnect attempt (connect calls: 3) — not exactly one. -/
theorem C3_second_reconnect_cex :
    (noResponseT (pingT connectedDemo)).connectCalls = 2 ∧
    (deliverClose (noResponseT (pingT connectedDemo))).connectCalls = 3 ∧
    getSock (deliverClose (noResponseT (pingT connectedDemo))).sockets 1
      = some { url := "wss://example/x", hdrs := [("X-KM-PUBLIC", "pub")],
               readyState := 3, hasCloseHandler := false, sent := [] } := by
  decide

/-- Claim C3 (amended): when no pong answers a probe within the deadline,
the connection is forcibly terminated and an immediate reconnect attempt
follows; but because `noResponse` does not remove the terminated socket's
handlers, that socket's close event then runs `onClose`, which terminates
the replacement connection and makes a second reconnect attempt — so two
reconnect attempts, not exactly one, follow the termination (and the
first replacement socket ends up closed); the cascade stops there. -/
theorem C3_amended_liveness_failure_two_reconnects (st : TState) (sid : Nat) (s : Socket)
    (hcur : st.current = some sid) (hget : getSock st.sockets sid = some s)
    (hopen : s.readyState = 1) (hch : s.hasCloseHandler = true)
    (hpend : st.pendingClose = []) (hprobe : st.probeOutstanding = true) :
    (noResponseT st).connectCalls = st.connectCalls + 1 ∧
    (deliverClose (noResponseT st)).connectCalls = st.connectCalls + 2 ∧
    (deliverClose (deliverClose (noResponseT st))).connectCalls = st.connectCalls + 2 ∧
    getSock (deliverClose (noResponseT st)).sockets st.sockets.length
      = some { url := st.endpoint, hdrs := st.headers, readyState := 3, hasCloseHandler := false, sent := [] } := by
  have hlt : sid < st.sockets.length := getSock_some_lt _ _ _ hget
  have h1 : noResponseT st = { st with probeOutstanding := false, sockets := updateSock st.sockets sid (fun t => { t with readyState := 3 }) ++ [{ url := st.endpoint, hdrs := st.headers, readyState := 0, hasCloseHandler := false, sent := [] }], current := some st.sockets.length, pendingClose := [sid], connectCalls := st.connectCalls + 1 } := by
    simp [noResponseT, hprobe, hcur, terminateSock, hget, hopen, connectT, length_updateSock, hpend]
  have hlen1 : (updateSock st.sockets sid (fun t => { t with readyState := 3 })).length = st.sockets.length := length_updateSock _ _ _
  have hA : getSock (updateSock st.sockets sid (fun t => { t with readyState := 3 }) ++ [{ url := st.endpoint, hdrs := st.headers, readyState := 0, hasCloseHandler := false, sent := [] }]) sid = some { s with readyState := 3 } := by
    rw [getSock_append_lt _ _ _ (by omega), getSock_updateSock_self, hget]
    rfl
  have hB : getSock (updateSock (updateSock st.sockets sid (fun t => { t with readyState := 3 }) ++ [{ url := st.endpoint, hdrs := st.headers, readyState := 0, hasCloseHandler := false, sent := [] }]) sid (fun t => { t with readyState := 3 })) st.sockets.length = some { url := st.endpoint, hdrs := st.headers, readyState := 0, hasCloseHandler := false, sent := [] } := by
    rw [getSock_updateSock_ne _ _ _ _ (by omega), ← hlen1, getSock_append_length]
  have h2 : deliverClose (noResponseT st) = { st with probeOutstanding := false, sockets := updateSock (updateSock (updateSock (updateSock st.sockets sid (fun t => { t with readyState := 3 }) ++ [{ url := st.endpoint, hdrs := st.headers, readyState := 0, hasCloseHandler := false, sent := [] }]) sid (fun t => { t with readyState := 3 })) st.sockets.length (fun t => { t with readyState := 3 })) st.sockets.length (fun t => { t with hasCloseHandler := false }) ++ [{ url := st.endpoint, hdrs := st.headers, readyState := 0, hasCloseHandler := false, sent := [] }], current := some (st.sockets.length + 1), pendingClose := [st.sockets.length], connectCalls := st.connectCalls + 2 } := by
    rw [h1]
    simp [deliverClose, hA, hch, onCloseT, terminateSock, hB, connectT, length_updateSock]
  have hD : getSock (updateSock (updateSock (updateSock (updateSock st.sockets sid (fun t => { t with readyState := 3 }) ++ [{ url := st.endpoint, hdrs := st.headers, readyState := 0, hasCloseHandler := false, sent := [] }]) sid (fun t => { t with readyState := 3 })) st.sockets.length (fun t => { t with readyState := 3 })) st.sockets.length (fun t => { t with hasCloseHandler := false }) ++ [{ url := st.endpoint, hdrs := st.headers, readyState := 0, hasCloseHandler := false, sent := [] }]) st.sockets.length = some { url := st.endpoint, hdrs := st.headers, readyState := 3, hasCloseHandler := false, sent := [] } := by
    rw [getSock_append_lt _ _ _ (by simp [length_updateSock, hlen1]), getSock_updateSock_self, getSock_updateSock_self, hB]
    rfl
  refine ⟨by simp [h1], by simp [h2], ?_, by rw [h2]; exact hD⟩
  rw [h2]
  simp [deliverClose, hD]

/-- Claim C3, witness for the amended theorem at the concrete connected
transport with an outstanding probe. -/
theorem C3_amended_witness :
    (noResponseT (pingT connectedDemo)).connectCalls = (pingT connectedDemo).connectCalls + 1 ∧
    (deliverClose (noResponseT (pingT connectedDemo))).connectCalls = (pingT connectedDemo).connectCalls + 2 ∧
    (deliverClose (deliverClose (noResponseT (pingT connectedDemo)))).connectCalls = (pingT connectedDemo).connectCalls + 2 ∧
    getSock (deliverClose (noResponseT (pingT connectedDemo))).sockets (pingT connectedDemo).sockets.length
      = some { url := (pingT connectedDemo).endpoint, hdrs := (pingT connectedDemo).headers, readyState := 3, hasCloseHandler := false, sent := [] } :=
  C3_amended_liveness_failure_two_reconnects (pingT connectedDemo) 0
    { url := "wss://example/x", hdrs := [("X-KM-PUBLIC", "pub")],
      readyState := 1, hasCloseHandler := true, sent := [] }
    rfl (by decide) rfl rfl rfl rfl

theorem socketsMatch_updateSock (u : String) (h : List (String × String))
    (l : List Socket) (i : Nat) (f : Socket → Socket)
    (hf : ∀ t, (f t).url = t.url ∧ (f t).hdrs = t.hdrs)
    (hl : socketsMatch u h l = true) : socketsMatch u h (updateSock l i f) = true := by
  induction l generalizing i with
  | nil => simpa [updateSock] using hl
  | cons a rest ih =>
    cases i with
    | zero =>
      simp only [socketsMatch, updateSock, List.all_cons, Bool.and_eq_true] at hl ⊢
      exact ⟨by rw [(hf a).1, (hf a).2]; exact hl.1, hl.2⟩
    | succ n =>
      simp only [socketsMatch, updateSock, List.all_cons, Bool.and_eq_true] at hl ⊢
      exact ⟨hl.1, ih n hl.2⟩

theorem endpointInv_connectT (u : String) (h : List (String × String)) (st : TState)
    (hst : endpointInv u h st) : endpointInv u h (connectT st) := by
  obtain ⟨h1, h2, h3⟩ := hst
  refine ⟨h1, h2, ?_⟩
  simp only [connectT, socketsMatch, List.all_append] at *
  simp [h3, h1, h2]

theorem endpointInv_updateSockets (u : String) (h : List (String × String)) (st : TState)
    (sid : Nat) (f : Socket → Socket) (hf : ∀ t, (f t).url = t.url ∧ (f t).hdrs = t.hdrs)
    (hst : endpointInv u h st) :
    socketsMatch u h (updateSock st.sockets sid f) = true :=
  socketsMatch_updateSock u h st.sockets sid f hf hst.2.2

theorem endpointInv_terminateSock (u : String) (h : List (String × String)) (st : TState)
    (sid : Nat) (hst : endpointInv u h st) : endpointInv u h (terminateSock st sid) := by
  unfold terminateSock
  split
  · exact hst
  · split
    · exact hst
    · exact ⟨hst.1, hst.2.1,
        endpointInv_updateSockets u h st sid _ (fun t => ⟨rfl, rfl⟩) hst⟩

theorem endpointInv_wsClose (u : String) (h : List (String × String)) (st : TState)
    (hst : endpointInv u h st) : endpointInv u h (wsClose st) := by
  unfold wsClose
  split
  · exact hst
  · split
    · exact hst
    · split
      · exact hst
      · exact ⟨hst.1, hst.2.1,
          endpointInv_updateSockets u h st _ _ (fun t => ⟨rfl, rfl⟩) hst⟩

theorem endpointInv_openSucceeds (u : String) (h : List (String × String)) (st : TState)
    (hst : endpointInv u h st) : endpointInv u h (openSucceeds st) := by
  unfold openSucceeds
  split
  · exact hst
  · exact ⟨hst.1, hst.2.1,
      endpointInv_updateSockets u h st _ _ (fun t => ⟨rfl, rfl⟩) hst⟩

theorem endpointInv_onCloseT (u : String) (h : List (String × String)) (st : TState)
    (hst : endpointInv u h st) : endpointInv u h (onCloseT st) := by
  unfold onCloseT
  split
  · exact hst
  · next sid heq =>
    apply endpointInv_connectT
    have h4 := endpointInv_terminateSock u h st sid hst
    exact ⟨h4.1, h4.2.1,
      endpointInv_updateSockets u h _ sid _ (fun t => ⟨rfl, rfl⟩) h4⟩

theorem endpointInv_deliverClose (u : String) (h : List (String × String)) (st : TState)
    (hst : endpointInv u h st) : endpointInv u h (deliverClose st) := by
  unfold deliverClose
  split
  · exact hst
  · next sid rest heq =>
    have h4 : endpointInv u h { st with pendingClose := rest, sockets := updateSock st.sockets sid (fun s => { s with readyState := 3 }) } :=
      ⟨hst.1, hst.2.1, endpointInv_updateSockets u h st sid _ (fun t => ⟨rfl, rfl⟩) hst⟩
    split
    · exact h4
    · split
      · exact endpointInv_onCloseT u h _ h4
      · exact h4

theorem endpointInv_noResponseT (u : String) (h : List (String × String)) (st : TState)
    (hst : endpointInv u h st) : endpointInv u h (noResponseT st) := by
  unfold noResponseT
  split
  · split
    · exact hst
    · exact endpointInv_connectT u h _
        (endpointInv_terminateSock u h _ _ ⟨hst.1, hst.2.1, hst.2.2⟩)
  · exact hst

theorem endpointInv_sendT (u : String) (h : List (String × String)) (st : TState)
    (p : Packet) (hst : endpointInv u h st) : endpointInv u h (sendT st p).1 := by
  unfold sendT
  split
  · exact hst
  · split
    · exact hst
    · split
      · exact hst
      · exact ⟨hst.1, hst.2.1,
          endpointInv_updateSockets u h st _ _ (fun t => ⟨rfl, rfl⟩) hst⟩

theorem endpointInv_applyOp (u : String) (h : List (String × String)) (st : TState)
    (op : TOp) (hst : endpointInv u h st) : endpointInv u h (applyOp st op) := by
  cases op with
  | opConnect => exact endpointInv_connectT u h st hst
  | opOpenOk => exact endpointInv_openSucceeds u h st hst
  | opDisconnect => exact endpointInv_wsClose u h st hst
  | opDeliverClose => exact endpointInv_deliverClose u h st hst
  | opPing => exact ⟨hst.1, hst.2.1, hst.2.2⟩
  | opPong => exact ⟨hst.1, hst.2.1, hst.2.2⟩
  | opNoResponse => exact endpointInv_noResponseT u h st hst
  | opListen ch cb => exact ⟨hst.1, hst.2.1, hst.2.2⟩
  | opUnlistenAll ch =>
    simp only [applyOp]
    split
    · exact ⟨hst.1, hst.2.1, hst.2.2⟩
    · exact hst
  | opUnlistenOne ch cb => exact hst
  | opSend p => exact endpointInv_sendT u h st p hst

theorem endpointInv_applyOps (u : String) (h : List (String × String)) (ops : List TOp)
    (st : TState) (hst : endpointInv u h st) : endpointInv u h (applyOps st ops) := by
  induction ops generalizing st with
  | nil => exact hst
  | cons op rest ih => exact ih (applyOp st op) (endpointInv_applyOp u h st op hst)

theorem listeners_terminateSock (st : TState) (sid : Nat) :
    (terminateSock st sid).listeners = st.listeners := by
  unfold terminateSock
  split
  · rfl
  · split <;> rfl

theorem listeners_onCloseT (st : TState) :
    (onCloseT st).listeners = st.listeners := by
  unfold onCloseT
  split
  · rfl
  · exact listeners_terminateSock st _

theorem listeners_noResponseT (st : TState) :
    (noResponseT st).listeners = st.listeners := by
  unfold noResponseT
  split
  · split
    · rfl
    · exact listeners_terminateSock { st with probeOutstanding := false } _
  · rfl

/-- Claim C9 (confirmed): the endpoint URL and headers stored at
construction are never mutated by any sequence of transport operations
and external events, every socket the transport ever opens — including
those opened by the autonomous reconnects in `onClose` and `noResponse` —
targets exactly that stored URL and those headers, and neither reconnect
path changes the Subscriber Registry. -/
theorem C9_reconnect_uses_construction_endpoint (u : String)
    (h : List (String × String)) (ops : List TOp) :
    (applyOps (mkTransport u h) ops).endpoint = u ∧
    (applyOps (mkTransport u h) ops).headers = h ∧
    socketsMatch u h (applyOps (mkTransport u h) ops).sockets = true ∧
    (∀ st : TState,
      (onCloseT st).listeners = st.listeners ∧
      (noResponseT st).listeners = st.listeners) := by
  have hInv := endpointInv_applyOps u h ops (mkTransport u h) ⟨rfl, rfl, rfl⟩
  exact ⟨hInv.1, hInv.2.1, hInv.2.2,
    fun st => ⟨listeners_onCloseT st, listeners_noResponseT st⟩⟩

end PM2Io
